import Mathlib

/-!
Verification development for the falcon-auth0 middleware.

Shallow embedding of the authentication pipeline in
falcon_auth0/init.py (class Auth0Middleware) and
falcon_auth0/http_factory/init.py (http_error_factory).

Modelling conventions:
- Python dicts are association lists over String keys; dict.get, dict.update
  and dict.pop (without default) are lookupAssoc, setAssoc and popAssoc.
- The falcon Request object is a record of the fields the middleware touches:
  the Authorization header, the X-Auth-Token header, the HTTP method, the
  query parameters and the mutable per-request context dict.
- External collaborators are parameters: the jose library is a JoseEnv record
  (get_unverified_header restricted to its kid lookup, and jwt.decode), and
  the network fetch of the JWKS document is a JwksFetch value describing what
  urlopen plus json.loads would yield on this call.
- Raising a falcon HTTPError, raising a raw Python exception, and returning
  normally are the three constructors of Outcome.  Outcome additionally
  carries ghost instrumentation: the number of jwt.decode invocations and the
  number of writes of the auth context entry performed during the request.
-/

deriving instance DecidableEq for Except

namespace FalconAuth0

/-- Association-list lookup, modelling Python dict.get (None when missing). -/
def lookupAssoc (k : String) : List (String × α) → Option α
  | [] => none
  | (k2, v) :: rest => if k2 = k then some v else lookupAssoc k rest

/-- Association-list update, modelling a one-key Python dict.update. -/
def setAssoc (k : String) (v : α) : List (String × α) → List (String × α)
  | [] => [(k, v)]
  | (k2, v2) :: rest => if k2 = k then (k, v) :: rest else (k2, v2) :: setAssoc k v rest

/-- Association-list pop, modelling Python dict.pop without a default: the
value together with the dict less that key, or none when the key is missing,
in which case Python raises KeyError and the dict is unchanged. -/
def popAssoc (k : String) : List (String × α) → Option (α × List (String × α))
  | [] => none
  | (k2, v) :: rest =>
    if k2 = k then some (v, rest)
    else (popAssoc k rest).map (fun p => (p.1, (k2, v) :: p.2))

/-- Helper for pySplit: accumulates the current word (reversed) while walking
the character list. -/
def wordsAux : List Char → List Char → List String
  | [], [] => []
  | [], acc => [String.mk acc.reverse]
  | c :: cs, acc =>
    if c.isWhitespace then
      match acc with
      | [] => wordsAux cs []
      | _ => String.mk acc.reverse :: wordsAux cs []
    else wordsAux cs (c :: acc)

/-- Python str.split with no argument: split on runs of whitespace, dropping
leading and trailing whitespace; the empty string yields the empty list. -/
def pySplit (s : String) : List String := wordsAux s.toList []

/-- Python str.lower (ASCII behaviour suffices for the scheme comparison). -/
def pyLower (s : String) : String := String.mk (s.toList.map Char.toLower)

/-- Decoded JWT payload: a mapping from claim names to values. -/
abbrev Claims := List (String × String)

/-- Values stored in the falcon request context dict: plain strings (for
example a stashed access token) or the auth entry written by the middleware,
which is either None or a claim mapping. -/
inductive CtxVal where
  | str : String → CtxVal
  | auth : Option Claims → CtxVal
deriving DecidableEq

/-- The slice of the falcon Request object the middleware reads or writes. -/
structure Request where
  authHeader : Option String
  xAuthToken : Option String
  method : String
  params : List (String × String)
  context : List (String × CtxVal)
deriving DecidableEq

/-- One JWKS key as delivered by the endpoint.  kid is read with dict.get in
the source, hence Option; the four remaining fields are the ones the
middleware extracts, and extra stands for any further members of the key
document that the middleware ignores. -/
structure SigningKey where
  kid : Option String
  kty : String
  use : String
  n : String
  e : String
  extra : List (String × String)
deriving DecidableEq

/-- The keys member of the fetched JWKS document.  The source reads it as
jwks.get(KEYS_LITERAL, EMPTY_LIST); a document without that member is the
empty list here. -/
abbrev Jwks := List SigningKey

/-- The minimal rsa key dict the middleware hands to jwt.decode (source lines
252 to 258): kty, kid, use, n, e selected from the matching JWKS key. -/
structure RsaKey where
  kid : Option String
  kty : String
  use : String
  n : String
  e : String
deriving DecidableEq

/-- Builds the rsa key dict from a matched JWKS key, dropping extra fields. -/
def mkRsaKey (k : SigningKey) : RsaKey :=
  { kid := k.kid, kty := k.kty, use := k.use, n := k.n, e := k.e }

/-- The jwt options dict passed through verbatim to jwt.decode (boolean flags
and the integer leeway); the middleware never inspects it. -/
abbrev JwtOptions := List (String × Int)

/-- One environment entry of the auth configuration; each field mirrors a
dict.get performed by the source, hence all fields are optional. -/
structure EnvConfig where
  alg : Option (List String)
  audience : Option String
  domain : Option String
  access_token : Option String
  jwks_uri : Option String
deriving DecidableEq

/-- The auth configuration dict: its own scalar entries (flat) plus any
environment-named sub-dicts (envs). -/
structure AuthConfig where
  flat : EnvConfig
  envs : List (String × EnvConfig)
deriving DecidableEq

/-- Models config.get(environment, config): with no environment selector the
dict itself is used; with a selector, the named sub-dict when present and the
whole dict otherwise. -/
def AuthConfig.resolve (c : AuthConfig) : Option String → EnvConfig
  | none => c.flat
  | some envName => (lookupAssoc envName c.envs).getD c.flat

/-- The falcon HTTPError as constructed by http_error_factory. -/
structure HTTPError where
  status : String
  title : String
  description : String
  headers : Option (List (String × String))
  href : Option String
  href_text : Option String
  code : Option Int
deriving DecidableEq

/-- falcon.status_codes.HTTP_401. -/
def HTTP_401 : String := "401 Unauthorized"

/-- falcon.HTTP_799, the default status of http_error_factory. -/
def HTTP_799 : String := "799 End of the world"

/-- Default title of http_error_factory. -/
def default_human_title : String := "Leonard Bernstein"

/-- Default description of http_error_factory. -/
def default_description : String := "It\x27s the end of the world as we know it, and I feel fine!"

/-- http_error_factory from falcon_auth0/http_factory: packs its arguments
into a raise-able falcon HTTPError. -/
def http_error_factory (status title description : String)
    (headers : Option (List (String × String))) (href href_text : Option String)
    (code : Option Int) : HTTPError :=
  { status := status, title := title, description := description,
    headers := headers, href := href, href_text := href_text, code := code }

/-- The error produced by calling http_error_factory with no arguments, as
the bare except branch of process_request does (source line 297). -/
def http_error_factory_default : HTTPError :=
  http_error_factory HTTP_799 default_human_title default_description none none none none

/-- Error raised when the Authorization header does not split into exactly
two fields (source lines 180 to 187). -/
def improper_auth_header_error : HTTPError :=
  http_error_factory HTTP_401 "Improper \x27Authorization\x27 Header Formatting"
    "The \x27Authorization\x27 header was improperly formatted." none none none none

/-- Error raised when jwt.decode reports an expired token (source lines 275
to 282). -/
def expired_token_error : HTTPError :=
  http_error_factory HTTP_401 "Expired Token" "The provided token has expired."
    none none none none

/-- Error raised when jwt.decode reports a claims failure (source lines 286
to 293). -/
def invalid_claims_error : HTTPError :=
  http_error_factory HTTP_401 "Invalid Claims"
    "The claims are incorrect. Please check the Audience and the Issuer." none none none none

/-- Error raised when the Authorization scheme is not bearer (source lines
299 to 306); the description interpolates the offending scheme. -/
def invalid_auth_header_error (bearer : String) : HTTPError :=
  http_error_factory HTTP_401 "Invalid \x27Authorization\x27 Header"
    ("The \x27Authorization\x27 header started with " ++ bearer ++ ".") none none none none

/-- Raw Python exceptions that escape or are caught generically. -/
inductive PyExn where
  | keyError : String → PyExn
  | urlError : String → PyExn
  | jsonError : String → PyExn
  | attributeError : String → PyExn
deriving DecidableEq

/-- The jose jwt.decode failure modes distinguished by process_request:
ExpiredSignatureError, JWTClaimsError, and anything else. -/
inductive JwtError where
  | expiredSignature : JwtError
  | claimsError : JwtError
  | otherError : String → JwtError
deriving DecidableEq

/-- The jose library as an abstract collaborator: header_kid is
jwt.get_unverified_header followed by dict.get of kid (a token whose header
does not parse at all would raise outside any try block and is not exercised
by the claims); decode is jwt.decode applied to the token, the serialized
rsa key, the algorithm list, the options dict, the audience, the issuer and
the secondary access token value. -/
structure JoseEnv where
  header_kid : String → Option String
  decode : String → RsaKey → List String → Option JwtOptions → Option String →
    Option String → Option CtxVal → Except JwtError Claims

/-- What the network and json.loads deliver for one JWKS fetch: a parsed
document (none when the document is the JSON literal null), a transport
failure from urlopen or read, or a parse failure from json.loads. -/
inductive JwksFetch where
  | content : Option Jwks → JwksFetch
  | netError : String → JwksFetch
  | parseError : String → JwksFetch
deriving DecidableEq

/-- The middleware instance state set up by the constructor. -/
structure Auth0Middleware where
  config : AuthConfig
  claims_config : Option Claims
  jwt_options : Option JwtOptions
  digest : Bool
  environment : Option String
  jwks : Option Jwks
deriving DecidableEq

/-- The per-request environment config lookup
config.get(environment, config), performed afresh at each use site in the
source; it is pure, so it is shared here. -/
def Auth0Middleware.env_config (m : Auth0Middleware) : EnvConfig :=
  m.config.resolve m.environment

/-- create_jwks (source lines 211 to 219): reads the jwks uri from the
environment config, fetches and parses the document.  A transport or parse
failure propagates as the raw exception; there is no handler in the source. -/
def Auth0Middleware.create_jwks (m : Auth0Middleware) (fetch : JwksFetch) :
    Except PyExn (Option Jwks) :=
  let _uri := m.env_config.jwks_uri
  match fetch with
  | .content j => .ok j
  | .netError msg => .error (.urlError msg)
  | .parseError msg => .error (.jsonError msg)

/-- The constructor (source lines 151 to 155): stores the configuration and
eagerly fetches the JWKS; a fetch failure aborts construction with the raw
exception. -/
def auth0_init (auth_config : AuthConfig) (claims_config : Option Claims)
    (jwt_options : Option JwtOptions) (digest_access_token : Bool)
    (environment : Option String) (fetch : JwksFetch) : Except PyExn Auth0Middleware :=
  let base : Auth0Middleware :=
    { config := auth_config, claims_config := claims_config, jwt_options := jwt_options,
      digest := digest_access_token, environment := environment, jwks := none }
  match base.create_jwks fetch with
  | .ok j => .ok { base with jwks := j }
  | .error exn => .error exn

/-- get_token_auth_header (source lines 157 to 190): a missing Authorization
header hits the AttributeError branch and returns the pair of Nones, encoded
as ok none; a header that does not split into exactly two whitespace
separated fields hits the ValueError branch and raises the 401 formatting
error; otherwise the scheme and token are returned verbatim.  The
HTTPBadRequest branch is unreachable because get_header is called without
required. -/
def get_token_auth_header (req : Request) : Except HTTPError (Option (String × String)) :=
  match req.authHeader with
  | none => .ok none
  | some h =>
    match pySplit h with
    | [b, t] => .ok (some (b, t))
    | _ => .error improper_auth_header_error

/-- get_access_token (source lines 192 to 209): the X-Auth-Token header when
present; otherwise, for HEAD and GET the named entry of the query parameters
and for every other method the named entry of the request context, popped
when the digest flag is set (KeyError when absent) and peeked otherwise.
Returns the extracted value together with the possibly mutated request. -/
def Auth0Middleware.get_access_token (m : Auth0Middleware) (req : Request) :
    Except PyExn (Option CtxVal × Request) :=
  let name := m.env_config.access_token.getD "access_token"
  match req.xAuthToken with
  | some t => .ok (some (.str t), req)
  | none =>
    if req.method = "HEAD" ∨ req.method = "GET" then
      if m.digest then
        match popAssoc name req.params with
        | some (v, ps) => .ok (some (.str v), { req with params := ps })
        | none => .error (.keyError name)
      else .ok ((lookupAssoc name req.params).map .str, req)
    else
      if m.digest then
        match popAssoc name req.context with
        | some (v, ctx) => .ok (some v, { req with context := ctx })
        | none => .error (.keyError name)
      else .ok (lookupAssoc name req.context, req)

/-- process_claims (source lines 221 to 230): apart from printing, the
identity transform on the decoded claims. -/
def Auth0Middleware.process_claims (_m : Auth0Middleware) (claims : Claims) : Claims :=
  claims

/-- Result of one process_request call: a normal return, a raised falcon
HTTPError, or a raw Python exception escaping the method.  Each outcome
carries the middleware and request state at that point; ok and httpErr also
carry ghost counters: the number of jwt.decode invocations and the number of
writes of the auth context entry (an escaping raw exception can only occur
before any decode, so exn carries no counters). -/
inductive Outcome where
  | ok : Auth0Middleware → Request → Nat → Nat → Outcome
  | httpErr : HTTPError → Auth0Middleware → Request → Nat → Nat → Outcome
  | exn : PyExn → Auth0Middleware → Request → Outcome
deriving DecidableEq

/-- Ghost counter: jwt.decode invocations recorded in an outcome. -/
def Outcome.decodes : Outcome → Nat
  | .ok _ _ nd _ => nd
  | .httpErr _ _ _ nd _ => nd
  | .exn _ _ _ => 0

/-- Ghost counter: writes of the auth context entry recorded in an outcome. -/
def Outcome.authWrites : Outcome → Nat
  | .ok _ _ _ na => na
  | .httpErr _ _ _ _ na => na
  | .exn _ _ _ => 0

/-- True exactly for the httpErr outcome. -/
def Outcome.isHttpErr : Outcome → Bool
  | .httpErr _ _ _ _ _ => true
  | _ => false

/-- True exactly for the ok outcome. -/
def Outcome.isOk : Outcome → Bool
  | .ok _ _ _ _ => true
  | _ => false

/-- The key loop of process_request (source lines 250 to 297).  For each key
of the JWKS: when its kid equals the kid declared in the token header, the
rsa key dict is built from it; then, whenever a non-empty rsa key has been
built so far, the try block runs: the secondary access token is extracted
(possibly popping it from the request), jwt.decode is invoked, and on success
the processed claims are written into the context under auth, after which the
loop continues with the next key.  ExpiredSignatureError and JWTClaimsError
raise their dedicated 401 errors; any other exception, including the KeyError
from the extractor, raises the default error of http_error_factory. -/
def auth_loop (env : JoseEnv) (m : Auth0Middleware) (tok : String) (hdrKid : Option String) :
    List SigningKey → Option RsaKey → Request → Nat → Nat → Outcome
  | [], _, req, nd, na => .ok m req nd na
  | k :: rest, rsa0, req, nd, na =>
    match (if k.kid = hdrKid then some (mkRsaKey k) else rsa0) with
    | none => auth_loop env m tok hdrKid rest none req nd na
    | some rk =>
      match m.get_access_token req with
      | .error _ => .httpErr http_error_factory_default m req nd na
      | .ok (acc, req1) =>
        match env.decode tok rk (m.env_config.alg.getD ["RS256"]) m.jwt_options
            m.env_config.audience m.env_config.domain acc with
        | .ok claims =>
          auth_loop env m tok hdrKid rest (some rk)
            { req1 with context := setAssoc "auth" (.auth (some (m.process_claims claims))) req1.context }
            (nd + 1) (na + 1)
        | .error .expiredSignature => .httpErr expired_token_error m req1 (nd + 1) na
        | .error .claimsError => .httpErr invalid_claims_error m req1 (nd + 1) na
        | .error (.otherError _) => .httpErr http_error_factory_default m req1 (nd + 1) na

/-- The body of process_request after the lazy JWKS refresh (source lines
242 to 306): parse the Authorization header; when it is absent attach auth
None to the context and return; when the scheme is bearer read the token
header kid and run the key loop over the JWKS (a None JWKS raises
AttributeError at the for statement); any other scheme raises the invalid
header 401 error. -/
def Auth0Middleware.process_request_main (env : JoseEnv) (m : Auth0Middleware)
    (req : Request) : Outcome :=
  match get_token_auth_header req with
  | .error err => .httpErr err m req 0 0
  | .ok none => .ok m { req with context := setAssoc "auth" (CtxVal.auth none) req.context } 0 0
  | .ok (some (b, t)) =>
    if pyLower b = "bearer" then
      match m.jwks with
      | none => .exn (.attributeError "NoneType has no attribute get") m req
      | some keys => auth_loop env m t (env.header_kid t) keys none req 0 0
    else .httpErr (invalid_auth_header_error b) m req 0 0

/-- process_request (source lines 232 to 306): when the cached JWKS is None
it is re-fetched first (a fetch failure escapes as the raw exception and
leaves the cache None); then the main body runs. -/
def Auth0Middleware.process_request (env : JoseEnv) (fetch : JwksFetch)
    (m : Auth0Middleware) (req : Request) : Outcome :=
  match m.jwks with
  | some _ => m.process_request_main env req
  | none =>
    match m.create_jwks fetch with
    | .error exn => .exn exn m req
    | .ok j => Auth0Middleware.process_request_main env { m with jwks := j } req

/-! Concrete fixtures used by the witnesses and counterexamples. -/

/-- A flat configuration with the usual fields populated. -/
def sampleConfig : AuthConfig :=
  { flat := { alg := some ["RS256"], audience := some "api-y", domain := some "issuer.example",
              access_token := none, jwks_uri := some "https://issuer.example/jwks.json" },
    envs := [] }

/-- A JWKS key with kid key1. -/
def sampleKey1 : SigningKey :=
  { kid := some "key1", kty := "RSA", use := "sig", n := "mod1", e := "AQAB", extra := [] }

/-- A JWKS key with kid key2. -/
def sampleKey2 : SigningKey :=
  { kid := some "key2", kty := "RSA", use := "sig", n := "mod2", e := "AQAB", extra := [] }

/-- A decoded payload used by the sample decode functions. -/
def sampleClaims : Claims := [("sub", "user-1"), ("aud", "api-y"), ("iss", "issuer.example")]

/-- A middleware instance over sampleConfig with the given digest flag and
cached JWKS. -/
def sampleMw (digest : Bool) (jwks : Option Jwks) : Auth0Middleware :=
  { config := sampleConfig, claims_config := none, jwt_options := none,
    digest := digest, environment := none, jwks := jwks }

/-- A jose environment in which every token carries its own string as header
kid and every decode succeeds with sampleClaims: signature, audience, issuer
and expiry all verify. -/
def envOk : JoseEnv :=
  { header_kid := fun t => some t,
    decode := fun _ _ _ _ _ _ _ => .ok sampleClaims }

/-- A jose environment in which decode raises an unexpected error. -/
def envBoom : JoseEnv :=
  { header_kid := fun t => some t,
    decode := fun _ _ _ _ _ _ _ => .error (.otherError "boom") }

/-- A jose environment in which decode reports an expired signature. -/
def envExpired : JoseEnv :=
  { header_kid := fun t => some t,
    decode := fun _ _ _ _ _ _ _ => .error .expiredSignature }

/-- A fetch that succeeds with an empty key list (unused when the cache is
already populated). -/
def fetch0 : JwksFetch := .content (some [])

/-- A GET request bearing a token whose header kid is key1, with no
X-Auth-Token header, no query parameters and an empty context. -/
def baseReq : Request :=
  { authHeader := some "Bearer key1", xAuthToken := none, method := "GET",
    params := [], context := [] }

/-! Helper lemmas shared by the claim theorems. -/

/-- Updating a key and then looking it up yields the new value. -/
theorem lookupAssoc_setAssoc_self (k : String) (v : α) (l : List (String × α)) :
    lookupAssoc k (setAssoc k v l) = some v := by
  induction l with
  | nil => simp [setAssoc, lookupAssoc]
  | cons p rest ih =>
    obtain ⟨k2, v2⟩ := p
    by_cases h : k2 = k
    · simp [setAssoc, lookupAssoc, h]
    · simp [setAssoc, lookupAssoc, h, ih]

/-- When the X-Auth-Token header is present, the extractor returns its value
wrapped as a string and leaves the request untouched. -/
theorem get_access_token_header (m : Auth0Middleware) (req : Request) (s : String)
    (h : req.xAuthToken = some s) :
    m.get_access_token req = .ok (some (CtxVal.str s), req) := by
  simp only [Auth0Middleware.get_access_token, h]

/-- The only error the header parser can raise is the formatting error. -/
theorem get_token_auth_header_error_eq (req : Request) (err : HTTPError)
    (h : get_token_auth_header req = .error err) : err = improper_auth_header_error := by
  unfold get_token_auth_header at h
  split at h
  · exact absurd h (by simp)
  · split at h
    · exact absurd h (by simp)
    · exact (Except.error.inj h).symm

/-- The fetch outcome of create_jwks does not depend on the instance. -/
theorem create_jwks_indep (m1 m2 : Auth0Middleware) (f : JwksFetch) :
    m1.create_jwks f = m2.create_jwks f := by
  cases f <;> rfl

/-! Claim theorems. -/

/-- Claim C1 (code bug): for a bearer token whose header kid matches no key
of the fetched JWKS, process_request neither raises any error nor touches the
context: the request passes through silently with no auth entry, instead of
the UnknownSigningKey rejection the claim describes.  The jose environment
here would accept any signature, so the silent pass is independent of
signature validity. -/
theorem c1_unknown_kid_silent_pass :
    (sampleMw true (some [sampleKey1])).process_request envOk fetch0
        { baseReq with authHeader := some "Bearer nokid" } =
      .ok (sampleMw true (some [sampleKey1])) { baseReq with authHeader := some "Bearer nokid" } 0 0 ∧
    ((sampleMw true (some [sampleKey1])).process_request envOk fetch0
        { baseReq with authHeader := some "Bearer nokid" }).isHttpErr = false ∧
    lookupAssoc "auth" ({ baseReq with authHeader := some "Bearer nokid" } : Request).context =
      none := by
  decide

/-- Claim C2, counterexample: a token every decode of which would succeed is
nevertheless rejected with the generic error, because with the digest flag
set (the constructor default) and no X-Auth-Token header the extractor pops a
missing access_token parameter, raising KeyError inside the try block. -/
theorem c2_valid_token_generic_error :
    envOk.decode "key1" (mkRsaKey sampleKey1) ["RS256"] none (some "api-y")
        (some "issuer.example") none = .ok sampleClaims ∧
    (sampleMw true (some [sampleKey1])).process_request envOk fetch0 baseReq =
      .httpErr http_error_factory_default (sampleMw true (some [sampleKey1])) baseReq 0 0 ∧
    ((sampleMw true (some [sampleKey1])).process_request envOk fetch0 baseReq).isOk = false := by
  decide

/-- Claim C3 (code bug): with the digest flag set, a request with no
X-Auth-Token header and no access_token parameter makes the extractor raise
KeyError, which process_request surfaces as the generic default error, so the
absent secondary token is an error rather than proceeding; only with the
digest flag cleared does absence yield None and verification proceed. -/
theorem c3_absent_access_token_keyerror :
    (sampleMw true (some [sampleKey1])).get_access_token baseReq =
      .error (.keyError "access_token") ∧
    (sampleMw false (some [sampleKey1])).get_access_token baseReq = .ok (none, baseReq) ∧
    (sampleMw true (some [sampleKey1])).process_request envOk fetch0 baseReq =
      .httpErr http_error_factory_default (sampleMw true (some [sampleKey1])) baseReq 0 0 := by
  decide

/-- Claim C4, counterexample: an unexpected failure during verification is
reported through http_error_factory with all defaults, whose status line is
the falcon joke code 799, not 401 Unauthorized. -/
theorem c4_unexpected_error_not_401 :
    (sampleMw true (some [sampleKey1])).process_request envBoom fetch0
        { baseReq with xAuthToken := some "acc" } =
      .httpErr http_error_factory_default (sampleMw true (some [sampleKey1]))
        { baseReq with xAuthToken := some "acc" } 1 0 ∧
    http_error_factory_default.status = HTTP_799 ∧
    ¬ http_error_factory_default.status = HTTP_401 := by
  decide

/-- Claim C5, counterexample: with two keys in the JWKS and the matching key
first, jwt.decode is invoked twice and the auth entry is written twice,
because the try block sits inside the key loop and keeps running for every
remaining key once the rsa key dict is non-empty. -/
theorem c5_decode_invoked_twice :
    ((sampleMw true (some [sampleKey1, sampleKey2])).process_request envOk fetch0
        { baseReq with xAuthToken := some "acc" }).decodes = 2 ∧
    ((sampleMw true (some [sampleKey1, sampleKey2])).process_request envOk fetch0
        { baseReq with xAuthToken := some "acc" }).authWrites = 2 ∧
    ¬ (2 : Nat) ≤ 1 := by
  decide

/-- Claim C6, counterexample: a rejected request whose state was mutated
before the failure: the access_token query parameter was consumed on the
first decode attempt and the auth context entry was written by the first
successful decode, after which the second loop iteration fails with the
generic error. -/
theorem c6_rejected_after_mutation :
    (sampleMw true (some [sampleKey1, sampleKey2])).process_request envOk fetch0
        { baseReq with params := [("access_token", "AAA")] } =
      .httpErr http_error_factory_default (sampleMw true (some [sampleKey1, sampleKey2]))
        { baseReq with context := [("auth", CtxVal.auth (some sampleClaims))] } 1 1 ∧
    ¬ ({ baseReq with context := [("auth", CtxVal.auth (some sampleClaims))] } : Request).params =
        ({ baseReq with params := [("access_token", "AAA")] } : Request).params ∧
    lookupAssoc "auth"
        ({ baseReq with context := [("auth", CtxVal.auth (some sampleClaims))] } : Request).context =
      some (CtxVal.auth (some sampleClaims)) := by
  decide

/-- Claim C7, counterexample: with an empty cache and a failing fetch,
process_request ends in the raw urlopen exception, not in any structured
HTTPError, while the cache stays empty. -/
theorem c7_fetch_failure_not_structured :
    (sampleMw true none).process_request envOk (.netError "connection refused") baseReq =
      .exn (.urlError "connection refused") (sampleMw true none) baseReq ∧
    ((sampleMw true none).process_request envOk (.netError "connection refused") baseReq).isHttpErr =
      false ∧
    (sampleMw true none).jwks = none := by
  decide

/-- Claim C7, amended: a failing JWKS fetch propagates the raw exception,
both from process_request and from the constructor; the cached set stays None
(the outcome carries the unchanged instance), so a later call with a working
network fetches again and proceeds with the fresh document. -/
theorem c7_fetch_failure_unstructured (env : JoseEnv) (m : Auth0Middleware) (req : Request)
    (fetch : JwksFetch) (exn : PyExn)
    (h0 : m.jwks = none) (h1 : m.create_jwks fetch = .error exn) :
    m.process_request env fetch req = .exn exn m req ∧
    auth0_init m.config m.claims_config m.jwt_options m.digest m.environment fetch =
      .error exn ∧
    (∀ fetch2 j, m.create_jwks fetch2 = .ok j →
      m.process_request env fetch2 req =
        Auth0Middleware.process_request_main env { m with jwks := j } req) := by
  refine ⟨?_, ?_, ?_⟩
  · simp only [Auth0Middleware.process_request, h0, h1]
  · simp only [auth0_init]
    rw [create_jwks_indep _ m, h1]
  · intro fetch2 j h2
    simp only [Auth0Middleware.process_request, h0, h2]

/-- Claim C7, witness for the amended theorem at a concrete failing fetch. -/
theorem c7_fetch_failure_unstructured_witness :
    (sampleMw true none).process_request envOk (.netError "timeout") baseReq =
      .exn (.urlError "timeout") (sampleMw true none) baseReq ∧
    auth0_init sampleConfig none none true none (.netError "timeout") =
      .error (.urlError "timeout") := by
  have h := c7_fetch_failure_unstructured envOk (sampleMw true none) baseReq
    (.netError "timeout") (.urlError "timeout") rfl rfl
  exact ⟨h.1, h.2.1⟩

/-- Claim C8, counterexample: an Authorization header that is present but
empty is not treated as absent; it is rejected with the 401 formatting error
instead of recording auth as null. -/
theorem c8_empty_header_rejected :
    (sampleMw true (some [sampleKey1])).process_request envOk fetch0
        { baseReq with authHeader := some "" } =
      .httpErr improper_auth_header_error (sampleMw true (some [sampleKey1]))
        { baseReq with authHeader := some "" } 0 0 ∧
    ((sampleMw true (some [sampleKey1])).process_request envOk fetch0
        { baseReq with authHeader := some "" }).isOk = false := by
  decide

/-- Claim C8, amended: for a request with no Authorization header at all, the
header parser signals absent, the orchestrator writes auth as null into the
context and returns without raising. -/
theorem c8_missing_header_attaches_null (env : JoseEnv) (fetch : JwksFetch)
    (m : Auth0Middleware) (ks : Jwks) (req : Request)
    (hj : m.jwks = some ks) (hh : req.authHeader = none) :
    m.process_request env fetch req =
      .ok m { req with context := setAssoc "auth" (CtxVal.auth none) req.context } 0 0 := by
  simp only [Auth0Middleware.process_request, hj, Auth0Middleware.process_request_main,
    get_token_auth_header, hh]

/-- Claim C8, witness: the amended theorem at a concrete anonymous request. -/
theorem c8_missing_header_attaches_null_witness :
    (sampleMw true (some [sampleKey1])).process_request envOk fetch0
        { baseReq with authHeader := none } =
      .ok (sampleMw true (some [sampleKey1]))
        { baseReq with
          authHeader := none,
          context := [("auth", CtxVal.auth none)] } 0 0 := by
  have h := c8_missing_header_attaches_null envOk fetch0 (sampleMw true (some [sampleKey1]))
    [sampleKey1] { baseReq with authHeader := none } rfl rfl
  exact h

/-- Claim C6, amended: rejections decided before any decode attempt leave the
request untouched: when the header parser fails, and when the scheme is not
bearer, the raised error is the only effect and the request state in the
outcome is exactly the incoming one. -/
theorem c6_no_mutation_pre_decode (env : JoseEnv) (fetch : JwksFetch) (m : Auth0Middleware)
    (ks : Jwks) (req : Request) (hj : m.jwks = some ks) :
    (∀ err, get_token_auth_header req = .error err →
      m.process_request env fetch req = .httpErr err m req 0 0) ∧
    (∀ b t, get_token_auth_header req = .ok (some (b, t)) → ¬ pyLower b = "bearer" →
      m.process_request env fetch req = .httpErr (invalid_auth_header_error b) m req 0 0) := by
  refine ⟨fun err he => ?_, fun b t hbt hb => ?_⟩
  · simp only [Auth0Middleware.process_request, hj, Auth0Middleware.process_request_main, he]
  · simp only [Auth0Middleware.process_request, hj, Auth0Middleware.process_request_main, hbt]
    rw [if_neg hb]

/-- Claim C6, witness: the amended theorem applied to a one-word header. -/
theorem c6_no_mutation_pre_decode_witness :
    (sampleMw true (some [sampleKey1])).process_request envOk fetch0
        { baseReq with authHeader := some "Bearer" } =
      .httpErr improper_auth_header_error (sampleMw true (some [sampleKey1]))
        { baseReq with authHeader := some "Bearer" } 0 0 :=
  (c6_no_mutation_pre_decode envOk fetch0 (sampleMw true (some [sampleKey1])) [sampleKey1]
      { baseReq with authHeader := some "Bearer" } rfl).1
    improper_auth_header_error (by decide)

/-- Claim C10: whenever the X-Auth-Token header is present, the access token
extractor returns that value verbatim and the request, including its query
parameters and context, is returned unchanged, for every method and both
digest settings. -/
theorem c10_xauth_header_verbatim (m : Auth0Middleware) (req : Request) (s : String)
    (h : req.xAuthToken = some s) :
    m.get_access_token req = .ok (some (CtxVal.str s), req) :=
  get_access_token_header m req s h

/-- Invariant-based run of the key loop: when the X-Auth-Token header is
present (so extraction never mutates and never fails) and every key whose kid
equals the token header kid decodes to the same claim set, the loop ends in a
normal return whose context holds those claims under auth, provided a
matching key lies ahead or the rsa key dict already holds a matched key and
the claims are already attached. -/
theorem auth_loop_ok_of_decode_ok (env : JoseEnv) (m : Auth0Middleware) (tok : String)
    (hdrKid : Option String) (s : String) (claims : Claims)
    (hdec : ∀ k : SigningKey, k.kid = hdrKid →
      env.decode tok (mkRsaKey k) (m.env_config.alg.getD ["RS256"]) m.jwt_options
        m.env_config.audience m.env_config.domain (some (CtxVal.str s)) = .ok claims) :
    ∀ (keys : List SigningKey) (rsa : Option RsaKey) (req : Request) (nd na : Nat),
      req.xAuthToken = some s →
      (rsa = none → ∃ k, k ∈ keys ∧ k.kid = hdrKid) →
      (∀ rk, rsa = some rk → (∃ k, k.kid = hdrKid ∧ rk = mkRsaKey k) ∧
        lookupAssoc "auth" req.context = some (CtxVal.auth (some claims))) →
      ∃ req2 nd2 na2, auth_loop env m tok hdrKid keys rsa req nd na = .ok m req2 nd2 na2 ∧
        lookupAssoc "auth" req2.context = some (CtxVal.auth (some claims)) := by
  intro keys
  induction keys with
  | nil =>
    intro rsa req nd na hx hreach hgood
    cases rsa with
    | none =>
      obtain ⟨k, hk, _⟩ := hreach rfl
      exact absurd hk (List.not_mem_nil k)
    | some rk =>
      exact ⟨req, nd, na, rfl, (hgood rk rfl).2⟩
  | cons k rest ih =>
    intro rsa req nd na hx hreach hgood
    have hacc := get_access_token_header m req s hx
    by_cases hk : k.kid = hdrKid
    · have hd := hdec k hk
      simp only [auth_loop, if_pos hk, hacc, hd]
      apply ih
      · exact hx
      · intro hcontra; exact Option.noConfusion hcontra
      · intro rk hrk
        refine ⟨⟨k, hk, (Option.some.inj hrk).symm⟩, ?_⟩
        exact lookupAssoc_setAssoc_self "auth" (CtxVal.auth (some claims)) req.context
    · simp only [auth_loop, if_neg hk]
      cases rsa with
      | none =>
        apply ih _ _ _ _ hx
        · intro _
          obtain ⟨k2, hk2, hkid2⟩ := hreach rfl
          rcases List.mem_cons.mp hk2 with heq | hmem
          · exact absurd (heq ▸ hkid2) hk
          · exact ⟨k2, hmem, hkid2⟩
        · intro rk hrk; exact Option.noConfusion hrk
      | some rk =>
        obtain ⟨⟨k2, hkid2, hrk2⟩, hlook⟩ := hgood rk rfl
        have hd := hdec k2 hkid2
        rw [hrk2] at *
        simp only [auth_loop, hacc, hd]
        apply ih
        · exact hx
        · intro hcontra; exact Option.noConfusion hcontra
        · intro rk2 hrk3
          refine ⟨⟨k2, hkid2, (Option.some.inj hrk3).symm⟩, ?_⟩
          exact lookupAssoc_setAssoc_self "auth" (CtxVal.auth (some claims)) req.context

/-- Claim C2, amended: for a token correctly signed by a key of the JWKS and
whose claims verify, process_request ends in a normal return with the context
auth entry equal to the decoded payload passed through the identity claims
processor, provided the secondary access token extraction succeeds on every
decode attempt, which the X-Auth-Token header guarantees; without it, the
default digest flag makes a missing or already consumed access_token
parameter abort the request with the generic error instead. -/
theorem c2_round_trip_attached (env : JoseEnv) (fetch : JwksFetch) (m : Auth0Middleware)
    (req : Request) (keys : Jwks) (b t s : String) (claims : Claims)
    (hj : m.jwks = some keys)
    (hh : get_token_auth_header req = .ok (some (b, t)))
    (hb : pyLower b = "bearer")
    (hx : req.xAuthToken = some s)
    (hmatch : ∃ k, k ∈ keys ∧ k.kid = env.header_kid t)
    (hdec : ∀ k : SigningKey, k.kid = env.header_kid t →
      env.decode t (mkRsaKey k) (m.env_config.alg.getD ["RS256"]) m.jwt_options
        m.env_config.audience m.env_config.domain (some (CtxVal.str s)) = .ok claims) :
    ∃ req2 nd na, m.process_request env fetch req = .ok m req2 nd na ∧
      lookupAssoc "auth" req2.context = some (CtxVal.auth (some (m.process_claims claims))) ∧
      m.process_claims claims = claims := by
  obtain ⟨req2, nd2, na2, heq, hlook⟩ :=
    auth_loop_ok_of_decode_ok env m t (env.header_kid t) s claims hdec keys none req 0 0 hx
      (fun _ => hmatch) (fun rk hrk => Option.noConfusion hrk)
  refine ⟨req2, nd2, na2, ?_, hlook, rfl⟩
  simp only [Auth0Middleware.process_request, hj, Auth0Middleware.process_request_main, hh]
  rw [if_pos hb]
  exact heq

/-- Claim C2, witness: the amended round trip at a concrete valid token with
the X-Auth-Token header present. -/
theorem c2_round_trip_attached_witness :
    ∃ req2 nd na,
      (sampleMw true (some [sampleKey1])).process_request envOk fetch0
          { baseReq with xAuthToken := some "acc" } =
        .ok (sampleMw true (some [sampleKey1])) req2 nd na ∧
      lookupAssoc "auth" req2.context =
        some (CtxVal.auth
          (some ((sampleMw true (some [sampleKey1])).process_claims sampleClaims))) ∧
      (sampleMw true (some [sampleKey1])).process_claims sampleClaims = sampleClaims :=
  c2_round_trip_attached envOk fetch0 (sampleMw true (some [sampleKey1]))
    { baseReq with xAuthToken := some "acc" } [sampleKey1] "Bearer" "key1" "acc" sampleClaims
    rfl (by decide) (by decide) rfl ⟨sampleKey1, by decide, rfl⟩ (fun k _ => rfl)

/-- Every falcon error the key loop can raise is either one of the dedicated
401 errors or the all-defaults error of http_error_factory. -/
theorem auth_loop_error_status (env : JoseEnv) (m : Auth0Middleware) (tok : String)
    (hdrKid : Option String) :
    ∀ (keys : List SigningKey) (rsa : Option RsaKey) (req : Request) (nd na : Nat)
      (err : HTTPError) (m2 : Auth0Middleware) (req2 : Request) (nd2 na2 : Nat),
      auth_loop env m tok hdrKid keys rsa req nd na = .httpErr err m2 req2 nd2 na2 →
      err.status = HTTP_401 ∨ err = http_error_factory_default := by
  intro keys
  induction keys with
  | nil =>
    intro rsa req nd na err m2 req2 nd2 na2 h
    exact absurd h (by simp [auth_loop])
  | cons k rest ih =>
    intro rsa req nd na err m2 req2 nd2 na2 h
    simp only [auth_loop] at h
    split at h
    · exact ih _ _ _ _ _ _ _ _ _ h
    · split at h
      · cases h
        exact Or.inr rfl
      · split at h
        · exact ih _ _ _ _ _ _ _ _ _ h
        · cases h
          exact Or.inl rfl
        · cases h
          exact Or.inl rfl
        · cases h
          exact Or.inr rfl

/-- Every falcon error the main body can raise is either a dedicated 401
error or the all-defaults error of http_error_factory. -/
theorem process_request_main_error_status (env : JoseEnv) (m : Auth0Middleware) (req : Request)
    (err : HTTPError) (m2 : Auth0Middleware) (req2 : Request) (nd na : Nat)
    (h : m.process_request_main env req = .httpErr err m2 req2 nd na) :
    err.status = HTTP_401 ∨ err = http_error_factory_default := by
  unfold Auth0Middleware.process_request_main at h
  split at h
  · rename_i e heq
    have he := get_token_auth_header_error_eq req e heq
    subst he
    cases h
    exact Or.inl rfl
  · exact absurd h (by simp)
  · split at h
    · split at h
      · exact absurd h (by simp)
      · exact auth_loop_error_status env m _ _ _ _ _ _ _ _ _ _ _ _ h
    · cases h
      exact Or.inl rfl

/-- Claim C4, amended: every falcon error process_request raises is either a
taxonomized failure carrying 401 Unauthorized, or the Unexpected category
reported with the generic default title, description and the joke status
799, which is not a 5xx but also not 401; fetch failures escape as raw
exceptions and raise no falcon error at all. -/
theorem c4_error_status_taxonomy (env : JoseEnv) (fetch : JwksFetch) (m : Auth0Middleware)
    (req : Request) (err : HTTPError) (m2 : Auth0Middleware) (req2 : Request) (nd na : Nat)
    (h : m.process_request env fetch req = .httpErr err m2 req2 nd na) :
    err.status = HTTP_401 ∨ err = http_error_factory_default := by
  unfold Auth0Middleware.process_request at h
  split at h
  · exact process_request_main_error_status env m req err m2 req2 nd na h
  · split at h
    · exact absurd h (by simp)
    · exact process_request_main_error_status env _ req err m2 req2 nd na h

/-- Claim C4, witness: the amended theorem at a concrete expired token. -/
theorem c4_error_status_taxonomy_witness :
    expired_token_error.status = HTTP_401 ∨ expired_token_error = http_error_factory_default :=
  c4_error_status_taxonomy envExpired fetch0 (sampleMw true (some [sampleKey1]))
    { baseReq with xAuthToken := some "acc" } expired_token_error
    (sampleMw true (some [sampleKey1])) { baseReq with xAuthToken := some "acc" } 1 0 (by decide)

/-- Counting run of the key loop: when no key before the last one matches the
token header kid, at most one decode and at most one auth write happen. -/
theorem auth_loop_decode_bound (env : JoseEnv) (m : Auth0Middleware) (tok : String)
    (hdrKid : Option String) :
    ∀ (keys : List SigningKey) (req : Request) (nd na : Nat),
      (∀ k, k ∈ keys.dropLast → ¬ k.kid = hdrKid) →
      (auth_loop env m tok hdrKid keys none req nd na).decodes ≤ nd + 1 ∧
      (auth_loop env m tok hdrKid keys none req nd na).authWrites ≤ na + 1 := by
  intro keys
  induction keys with
  | nil =>
    intro req nd na _
    simp only [auth_loop, Outcome.decodes, Outcome.authWrites]
    exact ⟨Nat.le_succ nd, Nat.le_succ na⟩
  | cons k rest ih =>
    intro req nd na hlast
    cases rest with
    | nil =>
      by_cases hk : k.kid = hdrKid
      · simp only [auth_loop, if_pos hk]
        cases hacc : m.get_access_token req with
        | error ex =>
          simp only [hacc, Outcome.decodes, Outcome.authWrites]
          exact ⟨Nat.le_succ nd, Nat.le_succ na⟩
        | ok pr =>
          obtain ⟨acc, req1⟩ := pr
          simp only [hacc]
          cases hd : env.decode tok (mkRsaKey k) (m.env_config.alg.getD ["RS256"])
              m.jwt_options m.env_config.audience m.env_config.domain acc with
          | ok claims =>
            simp only [hd, auth_loop, Outcome.decodes, Outcome.authWrites]
            exact ⟨Nat.le_refl _, Nat.le_refl _⟩
          | error je =>
            cases je <;> simp only [hd, Outcome.decodes, Outcome.authWrites] <;>
              exact ⟨Nat.le_refl _, Nat.le_succ na⟩
      · simp only [auth_loop, if_neg hk, Outcome.decodes, Outcome.authWrites]
        exact ⟨Nat.le_succ nd, Nat.le_succ na⟩
    | cons r rs =>
      have hdl : (k :: r :: rs).dropLast = k :: (r :: rs).dropLast := rfl
      have hk : ¬ k.kid = hdrKid := hlast k (by rw [hdl]; exact List.mem_cons_self k _)
      simp only [auth_loop, if_neg hk]
      exact ih req nd na (fun k2 hk2 => hlast k2 (by rw [hdl]; exact List.mem_cons_of_mem k hk2))

/-- Claim C5, amended: jwt.decode is invoked at most once and the auth entry
is written at most once whenever the token header kid matches no JWKS key
before the last one (in particular whenever the JWKS holds at most one key);
when an earlier key matches, decode runs again for every later key, stopping
only at the first failure, and each extra success rewrites auth with the same
claims. -/
theorem c5_decode_at_most_once_when_match_last (env : JoseEnv) (fetch : JwksFetch)
    (m : Auth0Middleware) (req : Request) (keys : Jwks) (b t : String)
    (hj : m.jwks = some keys)
    (hh : get_token_auth_header req = .ok (some (b, t)))
    (hb : pyLower b = "bearer")
    (hlast : ∀ k, k ∈ keys.dropLast → ¬ k.kid = env.header_kid t) :
    (m.process_request env fetch req).decodes ≤ 1 ∧
    (m.process_request env fetch req).authWrites ≤ 1 := by
  have hbound := auth_loop_decode_bound env m t (env.header_kid t) keys req 0 0 hlast
  have hpr : m.process_request env fetch req =
      auth_loop env m t (env.header_kid t) keys none req 0 0 := by
    simp only [Auth0Middleware.process_request, hj, Auth0Middleware.process_request_main, hh]
    rw [if_pos hb]
  rw [hpr]
  exact hbound

/-- Claim C5, witness: the amended theorem at a concrete one-key JWKS. -/
theorem c5_decode_at_most_once_when_match_last_witness :
    ((sampleMw true (some [sampleKey1])).process_request envOk fetch0
        { baseReq with xAuthToken := some "acc" }).decodes ≤ 1 ∧
    ((sampleMw true (some [sampleKey1])).process_request envOk fetch0
        { baseReq with xAuthToken := some "acc" }).authWrites ≤ 1 :=
  c5_decode_at_most_once_when_match_last envOk fetch0 (sampleMw true (some [sampleKey1]))
    { baseReq with xAuthToken := some "acc" } [sampleKey1] "Bearer" "key1" rfl (by decide)
    (by decide) (by intro k hk; simp at hk)

/-- Claim C10, witness at a concrete request carrying the header. -/
theorem c10_xauth_header_verbatim_witness :
    (sampleMw true (some [sampleKey1])).get_access_token
        { baseReq with xAuthToken := some "tok-x" } =
      .ok (some (CtxVal.str "tok-x"), { baseReq with xAuthToken := some "tok-x" }) :=
  c10_xauth_header_verbatim (sampleMw true (some [sampleKey1]))
    { baseReq with xAuthToken := some "tok-x" } "tok-x" rfl

end FalconAuth0
